import Mathlib

/-!
Shallow embedding of `core/sawtooth/manage/subproc.py`
(`SubprocessNodeController`), the subprocess lifecycle manager for
validator nodes.

Modelling conventions:
* Python dicts are association lists with unique keys (`dictGet`,
  `dictSet`, `dictPop` mirror `d[k]`, `d[k] = v`, `d.pop(k, None)`).
* The OS is an oracle (`Sys`): whether a pid is currently alive, the
  exit code it would report, whether the n-th `Popen` call succeeds and
  whether a signal to a pid is deliverable (`OSError` otherwise).
* Side effects (spawn, poll, wait, signals, debug logging, directory
  creation, file writes) are recorded in an event trace inside `World`;
  the filesystem is an association list from path to contents.
* Operations that can let a Python exception escape return a `Bool`
  flag as their first component: `true` means an uncaught exception
  propagated to the caller (with the state at that moment).
-/

/-- Process handle as held by `subprocess.Popen`: the pid together with the
cached `returncode` that `poll()` maintains (`none` while the last poll saw
the process running). -/
structure Handle where
  pid : Nat
  returncode : Option Int
deriving DecidableEq

/-- Caller-supplied node descriptor (`NodeArguments` in the repository). -/
structure NodeArguments where
  node_name : String
  http_port : Nat
  gossip_port : Nat
  config_files : List String
  genesis : Bool
  currency_home : Option String

/-- Ambient system state that the controller consults but does not own:
the parent environment (`os.environ`), `sys.path`, the external executable
resolver `get_executable_script`, and the OS oracle for polls, spawns and
signal delivery. -/
structure Sys where
  environ : List (String × String)
  sys_path : List String
  get_executable_script : String → List String
  alive : Nat → Bool
  exit_code : Nat → Int
  spawn_ok : Nat → Bool
  sig_ok : Nat → Bool

/-- Observable side effects, in program order. -/
inductive Event where
  | spawn (cmd : List String) (env : List (String × String)) (pid : Nat)
  | pollEv (pid : Nat)
  | waitEv (pid : Nat)
  | terminateSig (pid : Nat)
  | killSig (pid : Nat)
  | logDebug (msg : String)
  | makedirsEv (dir : String)
  | writeFileEv (path : String) (content : String)
deriving DecidableEq

/-- Mutable world outside the controller object: pid allocation, the count
of `Popen` calls made so far (used to index `Sys.spawn_ok`), the filesystem
(files and existing directories) and the event trace. -/
structure World where
  nextPid : Nat
  spawnCount : Nat
  fs : List (String × String)
  dirs : List String
  trace : List Event

/-- The controller object: constructor arguments `host_name` and `verbose`,
the two directories read from `self._base_config`, and the registry
`self._nodes` mapping node name to process handle. -/
structure SubprocessNodeController where
  host_name : String
  verbose : Bool
  config_directory : String
  key_directory : String
  nodes : List (String × Handle)

/-- Python `d[k]` / `d.get(k)` on an association list. -/
def dictGet {β : Type} : List (String × β) → String → Option β
  | [], _ => none
  | (k', v) :: rest, k => if k' = k then some v else dictGet rest k

/-- Python `d[k] = v`: replace in place if the key exists, else append. -/
def dictSet {β : Type} : List (String × β) → String → β → List (String × β)
  | [], k, v => [(k, v)]
  | (k', v') :: rest, k, v =>
    if k' = k then (k, v) :: rest else (k', v') :: dictSet rest k v

/-- Python `d.pop(k, None)`. -/
def dictPop {β : Type} (l : List (String × β)) (k : String) :
    List (String × β) :=
  l.filter (fun p => decide (p.1 ≠ k))

/-- Python `os.path.join` for the relative second components used here. -/
def path_join (a b : String) : String := a ++ "/" ++ b

/-- Content of `json.dumps({"InitialConnectivity": 0}, indent=4)`, the
serialized `self._v0_cfg`. -/
def v0_cfg_json : String := "\x7b\n    \"InitialConnectivity\": 0\n\x7d"

/-- `Popen.poll()`: once `returncode` is set it never changes; otherwise ask
the OS whether the process is still alive and record its exit code if not. -/
def Handle.poll (sys : Sys) (h : Handle) : Handle :=
  match h.returncode with
  | some _ => h
  | none =>
    if sys.alive h.pid then h else { h with returncode := some (sys.exit_code h.pid) }

/-- `subprocess.Popen(cmd, env=env)`: either a fresh live handle (recording
a `spawn` event) or an exception (`none`), decided by `Sys.spawn_ok` at the
current spawn count. -/
def popen (sys : Sys) (cmd : List String) (env : List (String × String))
    (w : World) : Option Handle × World :=
  if sys.spawn_ok w.spawnCount then
    (some { pid := w.nextPid, returncode := none },
     { w with
        nextPid := w.nextPid + 1
        spawnCount := w.spawnCount + 1
        trace := w.trace ++ [Event.spawn cmd env w.nextPid] })
  else
    (none, { w with spawnCount := w.spawnCount + 1 })

/-- `--config x` flags, one pair per configuration file, order preserved. -/
def config_flags : List String → List String
  | [] => []
  | x :: rest => "--config" :: x :: config_flags rest

/-- Resolution of the bootstrap configuration directory in
`_construct_start_command`: `currency_home/etc` when a home override is
present, else `self._base_config['ConfigDirectory']`. -/
def resolve_config_dir (c : SubprocessNodeController) (a : NodeArguments) :
    String :=
  match a.currency_home with
  | some h => path_join h "etc"
  | none => c.config_directory

/-- Resolution of the key directory in `create_genesis_block`:
`currency_home/keys` when a home override is present, else
`self._base_config['KeyDirectory']`. -/
def resolve_key_dir (c : SubprocessNodeController) (a : NodeArguments) :
    String :=
  match a.currency_home with
  | some h => path_join h "keys"
  | none => c.key_directory

/-- Path of the bootstrap file written for a genesis descriptor. -/
def bootstrap_path (c : SubprocessNodeController) (a : NodeArguments) :
    String :=
  path_join (resolve_config_dir c a) (a.node_name ++ "_bootstrap.json")

/-- `SubprocessNodeController._construct_start_command`: builds the
`txnvalidator` argument vector and, for a genesis descriptor, creates the
config directory if missing and writes the bootstrap JSON file. -/
def _construct_start_command (sys : Sys) (c : SubprocessNodeController)
    (a : NodeArguments) (w : World) : List String × World :=
  let cmd := sys.get_executable_script "txnvalidator"
  let cmd := if c.verbose = true then cmd ++ ["-vv"] else cmd
  let cmd := cmd ++ ["--node", a.node_name]
  let cmd := cmd ++
    ["--listen", c.host_name ++ ":" ++ toString a.http_port ++ "/TCP http"]
  let cmd := cmd ++
    ["--listen", c.host_name ++ ":" ++ toString a.gossip_port ++ "/UDP gossip"]
  let cmd := cmd ++ config_flags a.config_files
  if a.genesis then
    let config_dir := resolve_config_dir c a
    let w :=
      if w.dirs.contains config_dir then w
      else
        { w with
            dirs := w.dirs ++ [config_dir]
            trace := w.trace ++ [Event.makedirsEv config_dir] }
    let config_file := a.node_name ++ "_bootstrap.json"
    let w :=
      { w with
          fs := dictSet w.fs (path_join config_dir config_file) v0_cfg_json
          trace := w.trace ++
            [Event.writeFileEv (path_join config_dir config_file) v0_cfg_json] }
    (cmd ++ ["--config", config_file], w)
  else
    (cmd, w)

/-- `SubprocessNodeController._build_env`: copy `os.environ`, point
`PYTHONPATH` at `sys.path`, and inject `CURRENCYHOME` on a home override. -/
def _build_env (sys : Sys) (a : NodeArguments) : List (String × String) :=
  let env := dictSet sys.environ "PYTHONPATH" (String.intercalate ":" sys.sys_path)
  match a.currency_home with
  | some h => dictSet env "CURRENCYHOME" h
  | none => env

/-- `SubprocessNodeController.is_running`: authoritative liveness check.
Looks up the handle (`KeyError` means untracked), polls it, and when the
process is not (or no longer) live pops the registry entry before
returning. -/
def is_running (sys : Sys) (c : SubprocessNodeController) (node_name : String)
    (w : World) : Bool × SubprocessNodeController × World :=
  match dictGet c.nodes node_name with
  | none => (false, { c with nodes := dictPop c.nodes node_name }, w)
  | some handle =>
    let polled := handle.poll sys
    let w := { w with trace := w.trace ++ [Event.pollEv handle.pid] }
    if polled.returncode = none then
      (true, { c with nodes := dictSet c.nodes node_name polled }, w)
    else
      (false, { c with nodes := dictPop c.nodes node_name }, w)

/-- `SubprocessNodeController.start`: spawn the node unless `is_running`,
poll the fresh handle once, and register it only when that poll still
reports it running. First component `true` means the `Popen` exception
propagated. -/
def start (sys : Sys) (c : SubprocessNodeController) (a : NodeArguments)
    (w : World) : Bool × SubprocessNodeController × World :=
  match is_running sys c a.node_name w with
  | (true, c, w) => (false, c, w)
  | (false, c, w) =>
    match _construct_start_command sys c a w with
    | (cmd, w) =>
      match popen sys cmd (_build_env sys a) w with
      | (none, w) => (true, c, w)
      | (some handle, w) =>
        let polled := handle.poll sys
        let w := { w with trace := w.trace ++ [Event.pollEv handle.pid] }
        if polled.returncode = none then
          (false, { c with nodes := dictSet c.nodes a.node_name polled }, w)
        else
          (false, c, w)

/-- `SubprocessNodeController.stop`: when `is_running`, look the handle up
again (an absent key would raise an uncaught `KeyError`, flag `true`) and
`terminate()` it; an `OSError` is logged at debug severity and swallowed. -/
def stop (sys : Sys) (c : SubprocessNodeController) (node_name : String)
    (w : World) : Bool × SubprocessNodeController × World :=
  match is_running sys c node_name w with
  | (true, c, w) =>
    match dictGet c.nodes node_name with
    | none => (true, c, w)
    | some handle =>
      if sys.sig_ok handle.pid then
        (false, c, { w with trace := w.trace ++ [Event.terminateSig handle.pid] })
      else
        (false, c,
         { w with trace := w.trace ++
            [Event.logDebug "SubprocessNodeController.stop failed"] })
  | (false, c, w) => (false, c, w)

/-- `SubprocessNodeController.kill`: as `stop` but delivering `kill()`. -/
def kill (sys : Sys) (c : SubprocessNodeController) (node_name : String)
    (w : World) : Bool × SubprocessNodeController × World :=
  match is_running sys c node_name w with
  | (true, c, w) =>
    match dictGet c.nodes node_name with
    | none => (true, c, w)
    | some handle =>
      if sys.sig_ok handle.pid then
        (false, c, { w with trace := w.trace ++ [Event.killSig handle.pid] })
      else
        (false, c,
         { w with trace := w.trace ++
            [Event.logDebug "SubprocessNodeController.kill failed"] })
  | (false, c, w) => (false, c, w)

/-- `SubprocessNodeController.create_genesis_block`: when the node is not
running, run `sawtooth keygen` and wait, then `sawtooth admin
poet0-genesis` and wait, both under `_build_env`. Flag `true` means a
`Popen` exception propagated. -/
def create_genesis_block (sys : Sys) (c : SubprocessNodeController)
    (a : NodeArguments) (w : World) : Bool × SubprocessNodeController × World :=
  match is_running sys c a.node_name w with
  | (true, c, w) => (false, c, w)
  | (false, c, w) =>
    let cmd := sys.get_executable_script "sawtooth"
    let cmd := cmd ++ ["keygen", a.node_name]
    let cmd := cmd ++ ["--key-dir", resolve_key_dir c a]
    let cmd := if c.verbose = false then cmd ++ ["--quiet"] else cmd
    match popen sys cmd (_build_env sys a) w with
    | (none, w) => (true, c, w)
    | (some proc, w) =>
      let w := { w with trace := w.trace ++ [Event.waitEv proc.pid] }
      let cmd2 := sys.get_executable_script "sawtooth"
      let cmd2 := cmd2 ++ ["admin", "poet0-genesis"]
      let cmd2 := if c.verbose = true then cmd2 ++ ["-vv"] else cmd2
      let cmd2 := cmd2 ++ ["--node", a.node_name]
      let cmd2 := cmd2 ++ config_flags a.config_files
      match popen sys cmd2 (_build_env sys a) w with
      | (none, w) => (true, c, w)
      | (some proc2, w) =>
        (false, c, { w with trace := w.trace ++ [Event.waitEv proc2.pid] })

/-- Helper for `get_node_names`: the Python list comprehension
`[x for x in names if self.is_running(x)]`, threading the state mutations
that each `is_running` call makes. -/
def filter_running (sys : Sys) : List String → SubprocessNodeController →
    World → List String × SubprocessNodeController × World
  | [], c, w => ([], c, w)
  | x :: rest, c, w =>
    match is_running sys c x w with
    | (b, c, w) =>
      match filter_running sys rest c w with
      | (l, c, w) => (if b then x :: l else l, c, w)

/-- `SubprocessNodeController.get_node_names`: snapshot the registry keys
and keep those still running. -/
def get_node_names (sys : Sys) (c : SubprocessNodeController) (w : World) :
    List String × SubprocessNodeController × World :=
  filter_running sys (c.nodes.map Prod.fst) c w

/-- `SubprocessNodeController.get_ip`: the configured host name, whatever
the node name. -/
def get_ip (c : SubprocessNodeController) (node_name : String) : String :=
  c.host_name

/-- Count of spawn events in a trace. -/
def nSpawns (t : List Event) : Nat :=
  (t.filter (fun e => match e with | Event.spawn _ _ _ => true | _ => false)).length

/-- Count of poll events for a given pid in a trace. -/
def nPolls (pid : Nat) (t : List Event) : Nat :=
  (t.filter (fun e =>
    match e with | Event.pollEv q => decide (q = pid) | _ => false)).length

/-- Count of directory-creation events in a trace. -/
def nMakedirs (t : List Event) : Nat :=
  (t.filter (fun e => match e with | Event.makedirsEv _ => true | _ => false)).length

/-- Count of signal-delivery events (terminate or kill) in a trace. -/
def nSignals (t : List Event) : Nat :=
  (t.filter (fun e =>
    match e with
    | Event.terminateSig _ => true
    | Event.killSig _ => true
    | _ => false)).length

/-! ### Concrete fixtures used by witnesses -/

def sysW : Sys where
  environ := [("PATH", "/bin")]
  sys_path := ["/lib/sawtooth"]
  get_executable_script := fun s => ["/usr/bin/" ++ s]
  alive := fun _ => true
  exit_code := fun _ => 0
  spawn_ok := fun _ => true
  sig_ok := fun _ => true

def cW : SubprocessNodeController where
  host_name := "h"
  verbose := false
  config_directory := "/etc/sawtooth"
  key_directory := "/etc/sawtooth/keys"
  nodes := []

def aW : NodeArguments where
  node_name := "alpha"
  http_port := 8000
  gossip_port := 9000
  config_files := ["base.json"]
  genesis := true
  currency_home := none

def wW : World where
  nextPid := 41
  spawnCount := 0
  fs := []
  dirs := []
  trace := []

def hdW : Handle := { pid := 7, returncode := some 1 }

def cDeadW : SubprocessNodeController where
  host_name := "h"
  verbose := false
  config_directory := "/etc/sawtooth"
  key_directory := "/etc/sawtooth/keys"
  nodes := [("alpha", hdW)]

def sysFailW : Sys where
  environ := [("PATH", "/bin")]
  sys_path := ["/lib/sawtooth"]
  get_executable_script := fun s => ["/usr/bin/" ++ s]
  alive := fun _ => true
  exit_code := fun _ => 0
  spawn_ok := fun _ => false
  sig_ok := fun _ => true

/-! ### Dictionary lemmas -/

theorem dictGet_dictPop {β : Type} (l : List (String × β)) (k : String) :
    dictGet (dictPop l k) k = none := by
  induction l with
  | nil => rfl
  | cons p rest ih =>
    obtain ⟨k', v⟩ := p
    by_cases h : k' = k
    · simpa [dictPop, List.filter, h] using ih
    · simpa [dictPop, List.filter, h, dictGet] using ih

theorem dictPop_of_get_none {β : Type} (l : List (String × β)) (k : String)
    (h : dictGet l k = none) : dictPop l k = l := by
  induction l with
  | nil => rfl
  | cons p rest ih =>
    obtain ⟨k', v⟩ := p
    by_cases hk : k' = k
    · simp [dictGet, hk] at h
    · simp [dictGet, hk] at h
      simp [dictPop, List.filter, hk] at ih ⊢
      exact ih h

theorem dictSet_of_get_some {β : Type} (l : List (String × β)) (k : String)
    (v : β) (h : dictGet l k = some v) : dictSet l k v = l := by
  induction l with
  | nil => simp [dictGet] at h
  | cons p rest ih =>
    obtain ⟨k', v'⟩ := p
    by_cases hk : k' = k
    · simp [dictGet, hk] at h
      simp [dictSet, hk, h]
    · simp [dictGet, hk] at h
      simp [dictSet, hk, ih h]

theorem dictGet_dictSet_self {β : Type} (l : List (String × β)) (k : String)
    (v : β) : dictGet (dictSet l k v) k = some v := by
  induction l with
  | nil => simp [dictSet, dictGet]
  | cons p rest ih =>
    obtain ⟨k', v'⟩ := p
    by_cases hk : k' = k
    · simp [dictSet, hk, dictGet]
    · simp [dictSet, hk, dictGet, ih]

theorem dictGet_none_not_mem {β : Type} (l : List (String × β)) (k : String)
    (h : dictGet l k = none) : k ∉ l.map Prod.fst := by
  induction l with
  | nil => simp
  | cons p rest ih =>
    obtain ⟨k', v⟩ := p
    by_cases hk : k' = k
    · simp [dictGet, hk] at h
    · simp [dictGet, hk] at h
      simp [hk, ih h]
      exact fun hc => hk hc.symm

/-! ### Characterization of `is_running` -/

theorem is_running_untracked (sys : Sys) (c : SubprocessNodeController)
    (n : String) (w : World) (h : dictGet c.nodes n = none) :
    is_running sys c n w = (false, c, w) := by
  simp [is_running, h, dictPop_of_get_none c.nodes n h]

theorem is_running_live (sys : Sys) (c : SubprocessNodeController)
    (n : String) (w : World) (hd : Handle) (h : dictGet c.nodes n = some hd)
    (hrc : hd.returncode = none) (hal : sys.alive hd.pid = true) :
    is_running sys c n w =
      (true, c, { w with trace := w.trace ++ [Event.pollEv hd.pid] }) := by
  simp [is_running, h, Handle.poll, hrc, hal, dictSet_of_get_some c.nodes n hd h]

theorem is_running_dead (sys : Sys) (c : SubprocessNodeController)
    (n : String) (w : World) (hd : Handle) (h : dictGet c.nodes n = some hd)
    (hdead : hd.returncode ≠ none ∨ sys.alive hd.pid = false) :
    is_running sys c n w =
      (false, { c with nodes := dictPop c.nodes n },
       { w with trace := w.trace ++ [Event.pollEv hd.pid] }) := by
  rcases hdead with hrc | hal
  · match hv : hd.returncode with
    | none => exact absurd hv hrc
    | some code => simp [is_running, h, Handle.poll, hv]
  · match hv : hd.returncode with
    | none => simp [is_running, h, Handle.poll, hv, hal]
    | some code => simp [is_running, h, Handle.poll, hv]

theorem is_running_true_elim (sys : Sys) (c : SubprocessNodeController)
    (n : String) (w : World) (h : (is_running sys c n w).1 = true) :
    ∃ hd, dictGet c.nodes n = some hd ∧ hd.returncode = none ∧
      sys.alive hd.pid = true := by
  match hg : dictGet c.nodes n with
  | none => simp [is_running, hg] at h
  | some hd =>
    refine ⟨hd, rfl, ?_⟩
    match hv : hd.returncode with
    | some code => simp [is_running, hg, Handle.poll, hv] at h
    | none =>
      by_cases hal : sys.alive hd.pid
      · exact ⟨rfl, hal⟩
      · simp [is_running, hg, Handle.poll, hv, hal] at h

/-! ### Structure of the built start command -/

theorem construct_cmd_shape (sys : Sys) (c : SubprocessNodeController)
    (a : NodeArguments) (w : World) :
    (_construct_start_command sys c a w).1 =
      sys.get_executable_script "txnvalidator"
      ++ (if c.verbose = true then ["-vv"] else [])
      ++ ["--node", a.node_name]
      ++ ["--listen", c.host_name ++ ":" ++ toString a.http_port ++ "/TCP http"]
      ++ ["--listen", c.host_name ++ ":" ++ toString a.gossip_port ++ "/UDP gossip"]
      ++ config_flags a.config_files
      ++ (if a.genesis = true then ["--config", a.node_name ++ "_bootstrap.json"]
          else []) := by
  by_cases hgen : a.genesis <;> by_cases hv : c.verbose <;>
    simp [_construct_start_command, hgen, hv]

theorem construct_world_nongenesis (sys : Sys) (c : SubprocessNodeController)
    (a : NodeArguments) (w : World) (hgen : a.genesis = false) :
    (_construct_start_command sys c a w).2 = w := by
  simp [_construct_start_command, hgen]

theorem construct_world_genesis_dir_exists (sys : Sys)
    (c : SubprocessNodeController) (a : NodeArguments) (w : World)
    (hgen : a.genesis = true)
    (hdir : resolve_config_dir c a ∈ w.dirs) :
    (_construct_start_command sys c a w).2 =
      { w with
          fs := dictSet w.fs (bootstrap_path c a) v0_cfg_json
          trace := w.trace ++
            [Event.writeFileEv (bootstrap_path c a) v0_cfg_json] } := by
  simp [_construct_start_command, hgen, hdir, bootstrap_path]

theorem construct_world_genesis_dir_missing (sys : Sys)
    (c : SubprocessNodeController) (a : NodeArguments) (w : World)
    (hgen : a.genesis = true)
    (hdir : resolve_config_dir c a ∉ w.dirs) :
    (_construct_start_command sys c a w).2 =
      { w with
          dirs := w.dirs ++ [resolve_config_dir c a]
          fs := dictSet w.fs (bootstrap_path c a) v0_cfg_json
          trace := w.trace ++
            [Event.makedirsEv (resolve_config_dir c a),
             Event.writeFileEv (bootstrap_path c a) v0_cfg_json] } := by
  simp [_construct_start_command, hgen, hdir, bootstrap_path]

theorem construct_preserves (sys : Sys) (c : SubprocessNodeController)
    (a : NodeArguments) (w : World) :
    (_construct_start_command sys c a w).2.nextPid = w.nextPid ∧
    (_construct_start_command sys c a w).2.spawnCount = w.spawnCount ∧
    nSpawns (_construct_start_command sys c a w).2.trace = nSpawns w.trace ∧
    ∀ p, nPolls p (_construct_start_command sys c a w).2.trace =
      nPolls p w.trace := by
  by_cases hgen : a.genesis
  · by_cases hdir : resolve_config_dir c a ∈ w.dirs
    · rw [construct_world_genesis_dir_exists sys c a w hgen hdir]
      simp [nSpawns, nPolls, List.filter_append]
    · rw [construct_world_genesis_dir_missing sys c a w hgen hdir]
      simp [nSpawns, nPolls, List.filter_append]
  · rw [construct_world_nongenesis sys c a w (by simpa using hgen)]
    simp

/-! ### State preserved by `is_running` -/

theorem is_running_world_cases (sys : Sys) (c : SubprocessNodeController)
    (n : String) (w : World) :
    (is_running sys c n w).2.2 = w ∨
    ∃ pid, (is_running sys c n w).2.2 =
      { w with trace := w.trace ++ [Event.pollEv pid] } := by
  match hg : dictGet c.nodes n with
  | none => exact Or.inl (by simp [is_running, hg])
  | some hd =>
    refine Or.inr ⟨hd.pid, ?_⟩
    simp only [is_running, hg]
    split <;> rfl

theorem is_running_preserves_world (sys : Sys) (c : SubprocessNodeController)
    (n : String) (w : World) :
    (is_running sys c n w).2.2.nextPid = w.nextPid ∧
    (is_running sys c n w).2.2.spawnCount = w.spawnCount ∧
    (is_running sys c n w).2.2.fs = w.fs ∧
    (is_running sys c n w).2.2.dirs = w.dirs ∧
    nSpawns (is_running sys c n w).2.2.trace = nSpawns w.trace := by
  rcases is_running_world_cases sys c n w with h | ⟨pid, h⟩ <;>
    simp [h, nSpawns, List.filter_append]

theorem is_running_preserves_controller (sys : Sys)
    (c : SubprocessNodeController) (n : String) (w : World) :
    (is_running sys c n w).2.1.host_name = c.host_name ∧
    (is_running sys c n w).2.1.verbose = c.verbose ∧
    (is_running sys c n w).2.1.config_directory = c.config_directory ∧
    (is_running sys c n w).2.1.key_directory = c.key_directory := by
  match hg : dictGet c.nodes n with
  | none => simp [is_running, hg]
  | some hd =>
    simp only [is_running, hg]
    split <;> simp

theorem resolve_config_dir_fields (c c' : SubprocessNodeController)
    (a : NodeArguments) (h : c'.config_directory = c.config_directory) :
    resolve_config_dir c' a = resolve_config_dir c a := by
  cases a.currency_home <;> simp [resolve_config_dir, h]

theorem is_running_true_eq (sys : Sys) (c : SubprocessNodeController)
    (n : String) (w : World) (h : (is_running sys c n w).1 = true) :
    ∃ hd, dictGet c.nodes n = some hd ∧ hd.returncode = none ∧
      sys.alive hd.pid = true ∧
      is_running sys c n w =
        (true, c, { w with trace := w.trace ++ [Event.pollEv hd.pid] }) := by
  obtain ⟨hd, hget, hrc, hal⟩ := is_running_true_elim sys c n w h
  exact ⟨hd, hget, hrc, hal, is_running_live sys c n w hd hget hrc hal⟩

theorem is_running_false_not_tracked (sys : Sys)
    (c : SubprocessNodeController) (n : String) (w : World)
    (h : (is_running sys c n w).1 = false) :
    dictGet (is_running sys c n w).2.1.nodes n = none := by
  match hg : dictGet c.nodes n with
  | none => simp [is_running, hg, dictGet_dictPop]
  | some hd =>
    by_cases hrc : (hd.poll sys).returncode = none
    · simp [is_running, hg, hrc] at h
    · simp [is_running, hg, hrc, dictGet_dictPop]

theorem filter_running_subset (sys : Sys) (names : List String) :
    ∀ (c : SubprocessNodeController) (w : World) (x : String),
      x ∈ (filter_running sys names c w).1 → x ∈ names := by
  induction names with
  | nil =>
    intro c w x hx
    simp [filter_running] at hx
  | cons y rest ih =>
    intro c w x hx
    rcases hr : is_running sys c y w with ⟨b, c', w'⟩
    rcases hf : filter_running sys rest c' w' with ⟨l, c'', w''⟩
    simp only [filter_running, hr, hf] at hx
    by_cases hb : b = true
    · subst hb
      simp at hx
      rcases hx with hx | hx
      · simp [hx]
      · have := ih c' w' x (by rw [hf]; exact hx)
        simp [this]
    · have hb' : b = false := by simpa using hb
      subst hb'
      simp at hx
      have := ih c' w' x (by rw [hf]; exact hx)
      simp [this]

theorem get_node_names_subset (sys : Sys) (c : SubprocessNodeController)
    (w : World) (x : String) (hx : x ∈ (get_node_names sys c w).1) :
    x ∈ c.nodes.map Prod.fst :=
  filter_running_subset sys (c.nodes.map Prod.fst) c w x hx

/-! ### Characterization of `stop` and `kill` -/

theorem stop_of_not_running (sys : Sys) (c : SubprocessNodeController)
    (n : String) (w : World) (h : (is_running sys c n w).1 = false) :
    stop sys c n w =
      (false, (is_running sys c n w).2.1, (is_running sys c n w).2.2) := by
  rcases hr : is_running sys c n w with ⟨b, c', w'⟩
  rw [hr] at h
  simp at h
  subst h
  simp [stop, hr]

theorem kill_of_not_running (sys : Sys) (c : SubprocessNodeController)
    (n : String) (w : World) (h : (is_running sys c n w).1 = false) :
    kill sys c n w =
      (false, (is_running sys c n w).2.1, (is_running sys c n w).2.2) := by
  rcases hr : is_running sys c n w with ⟨b, c', w'⟩
  rw [hr] at h
  simp at h
  subst h
  simp [kill, hr]

theorem stop_of_running (sys : Sys) (c : SubprocessNodeController)
    (n : String) (w : World) (hd : Handle)
    (hget : dictGet c.nodes n = some hd) (hrc : hd.returncode = none)
    (hal : sys.alive hd.pid = true) :
    stop sys c n w =
      (false, c,
        { w with trace := w.trace ++ [Event.pollEv hd.pid] ++
            [if sys.sig_ok hd.pid then Event.terminateSig hd.pid
             else Event.logDebug "SubprocessNodeController.stop failed"] }) := by
  have heq := is_running_live sys c n w hd hget hrc hal
  by_cases hsig : sys.sig_ok hd.pid <;> simp [stop, heq, hget, hsig]

theorem kill_of_running (sys : Sys) (c : SubprocessNodeController)
    (n : String) (w : World) (hd : Handle)
    (hget : dictGet c.nodes n = some hd) (hrc : hd.returncode = none)
    (hal : sys.alive hd.pid = true) :
    kill sys c n w =
      (false, c,
        { w with trace := w.trace ++ [Event.pollEv hd.pid] ++
            [if sys.sig_ok hd.pid then Event.killSig hd.pid
             else Event.logDebug "SubprocessNodeController.kill failed"] }) := by
  have heq := is_running_live sys c n w hd hget hrc hal
  by_cases hsig : sys.sig_ok hd.pid <;> simp [kill, heq, hget, hsig]

/-! ### Claim theorems -/

/-- C8: `get_ip` returns the controller's single configured host name for
every node name, tracked or not; in particular it returns the same string
for any two node names, and being a pure function of the controller it
modifies no state. -/
theorem get_ip_host_invariance (c : SubprocessNodeController) (n m : String) :
    get_ip c n = c.host_name ∧ get_ip c n = get_ip c m :=
  ⟨rfl, rfl⟩

/-- C7: command construction is a deterministic function of the descriptor
and controller configuration; for host "h", http_port 8000 and gossip_port
9000 the built vector contains the listen strings "h:8000/TCP http" and
"h:9000/UDP gossip", it contains the node-identity flag with the node name,
and it contains one `--config` flag per entry of `config_files`, in input
order. -/
theorem command_determinism (sys : Sys) (c : SubprocessNodeController)
    (a : NodeArguments) (w w' : World) (hh : c.host_name = "h")
    (hp : a.http_port = 8000) (hg : a.gossip_port = 9000) :
    (_construct_start_command sys c a w).1 =
      (_construct_start_command sys c a w').1 ∧
    "h:8000/TCP http" ∈ (_construct_start_command sys c a w).1 ∧
    "h:9000/UDP gossip" ∈ (_construct_start_command sys c a w).1 ∧
    (∃ l₁ l₂, (_construct_start_command sys c a w).1 =
      l₁ ++ ["--node", a.node_name] ++ l₂) ∧
    (∃ l₁ l₂, (_construct_start_command sys c a w).1 =
      l₁ ++ config_flags a.config_files ++ l₂) ∧
    ∀ (x : String) (l : List String),
      config_flags (x :: l) = ["--config", x] ++ config_flags l := by
  have hs := construct_cmd_shape sys c a w
  have hs' := construct_cmd_shape sys c a w'
  have h1 : c.host_name ++ ":" ++ toString a.http_port ++ "/TCP http" =
      "h:8000/TCP http" := by rw [hh, hp]; rfl
  have h2 : c.host_name ++ ":" ++ toString a.gossip_port ++ "/UDP gossip" =
      "h:9000/UDP gossip" := by rw [hh, hg]; rfl
  refine ⟨by rw [hs, hs'], ?_, ?_, ?_, ?_, fun x l => rfl⟩
  · rw [hs, h1]
    simp
  · rw [hs, h2]
    simp
  · refine ⟨sys.get_executable_script "txnvalidator" ++
      (if c.verbose = true then ["-vv"] else []),
      ["--listen", c.host_name ++ ":" ++ toString a.http_port ++ "/TCP http"] ++
      ["--listen", c.host_name ++ ":" ++ toString a.gossip_port ++ "/UDP gossip"] ++
      config_flags a.config_files ++
      (if a.genesis = true then ["--config", a.node_name ++ "_bootstrap.json"]
       else []), ?_⟩
    rw [hs]
    simp
  · refine ⟨sys.get_executable_script "txnvalidator" ++
      (if c.verbose = true then ["-vv"] else []) ++ ["--node", a.node_name] ++
      ["--listen", c.host_name ++ ":" ++ toString a.http_port ++ "/TCP http"] ++
      ["--listen", c.host_name ++ ":" ++ toString a.gossip_port ++ "/UDP gossip"],
      (if a.genesis = true then ["--config", a.node_name ++ "_bootstrap.json"]
       else []), ?_⟩
    rw [hs]

theorem command_determinism_witness :
    cW.host_name = "h" ∧ aW.http_port = 8000 ∧ aW.gossip_port = 9000 ∧
    "h:8000/TCP http" ∈ (_construct_start_command sysW cW aW wW).1 ∧
    "h:9000/UDP gossip" ∈ (_construct_start_command sysW cW aW wW).1 :=
  ⟨rfl, rfl, rfl,
   (command_determinism sysW cW aW wW wW rfl rfl rfl).2.1,
   (command_determinism sysW cW aW wW wW rfl rfl rfl).2.2.1⟩

/-- C5: for a genesis descriptor, command construction resolves the config
directory (home-override path if present, else the controller default),
creates it only when missing, and writes `<node_name>_bootstrap.json` there
with content exactly the 4-space-indented JSON object; rerunning with the
same descriptor and controller state yields byte-identical contents. -/
theorem bootstrap_file_exact_content (sys : Sys) (c : SubprocessNodeController)
    (a : NodeArguments) (w : World) (hgen : a.genesis = true) :
    dictGet (_construct_start_command sys c a w).2.fs (bootstrap_path c a) =
      some "\x7b\n    \"InitialConnectivity\": 0\n\x7d" ∧
    (resolve_config_dir c a ∈ w.dirs →
      (_construct_start_command sys c a w).2.dirs = w.dirs ∧
      nMakedirs (_construct_start_command sys c a w).2.trace =
        nMakedirs w.trace) ∧
    (resolve_config_dir c a ∉ w.dirs →
      (_construct_start_command sys c a w).2.dirs =
        w.dirs ++ [resolve_config_dir c a] ∧
      nMakedirs (_construct_start_command sys c a w).2.trace =
        nMakedirs w.trace + 1) ∧
    dictGet (_construct_start_command sys c a
        (_construct_start_command sys c a w).2).2.fs (bootstrap_path c a) =
      dictGet (_construct_start_command sys c a w).2.fs (bootstrap_path c a) := by
  have hv0 : v0_cfg_json = "\x7b\n    \"InitialConnectivity\": 0\n\x7d" := rfl
  by_cases hdir : resolve_config_dir c a ∈ w.dirs
  · have h1 := construct_world_genesis_dir_exists sys c a w hgen hdir
    have hdir2 : resolve_config_dir c a ∈ (_construct_start_command sys c a w).2.dirs := by
      rw [h1]; exact hdir
    have h2 := construct_world_genesis_dir_exists sys c a
      (_construct_start_command sys c a w).2 hgen hdir2
    refine ⟨by rw [h1, ← hv0]; exact dictGet_dictSet_self w.fs _ _, ?_, ?_, ?_⟩
    · intro _
      rw [h1]
      simp [nMakedirs, List.filter_append, List.filter]
    · intro hc
      exact absurd hdir hc
    · rw [h2, h1]
      simp [dictGet_dictSet_self]
  · have h1 := construct_world_genesis_dir_missing sys c a w hgen hdir
    have hdir2 : resolve_config_dir c a ∈ (_construct_start_command sys c a w).2.dirs := by
      rw [h1]; simp
    have h2 := construct_world_genesis_dir_exists sys c a
      (_construct_start_command sys c a w).2 hgen hdir2
    refine ⟨by rw [h1, ← hv0]; exact dictGet_dictSet_self w.fs _ _, ?_, ?_, ?_⟩
    · intro hc
      exact absurd hc hdir
    · intro _
      rw [h1]
      simp [nMakedirs, List.filter_append, List.filter]
    · rw [h2, h1]
      simp [dictGet_dictSet_self]

theorem bootstrap_file_exact_content_witness :
    aW.genesis = true ∧
    dictGet (_construct_start_command sysW cW aW wW).2.fs
        (bootstrap_path cW aW) =
      some "\x7b\n    \"InitialConnectivity\": 0\n\x7d" :=
  ⟨rfl, (bootstrap_file_exact_content sysW cW aW wW rfl).1⟩

/-- C6: for a genesis descriptor the extra config-file flag appended to the
argument vector is the trailing pair `--config <node_name>_bootstrap.json`,
and joining the resolved config directory with that flag argument is
exactly the path of the bootstrap file just written (present in the trace
and on the filesystem with the bootstrap JSON content). -/
theorem bootstrap_flag_references_written_file (sys : Sys)
    (c : SubprocessNodeController) (a : NodeArguments) (w : World)
    (hgen : a.genesis = true) :
    ∃ l₁, (_construct_start_command sys c a w).1 =
        l₁ ++ ["--config", a.node_name ++ "_bootstrap.json"] ∧
      Event.writeFileEv
          (path_join (resolve_config_dir c a) (a.node_name ++ "_bootstrap.json"))
          v0_cfg_json ∈ (_construct_start_command sys c a w).2.trace ∧
      dictGet (_construct_start_command sys c a w).2.fs
          (path_join (resolve_config_dir c a) (a.node_name ++ "_bootstrap.json")) =
        some v0_cfg_json := by
  have hs := construct_cmd_shape sys c a w
  rw [hgen] at hs
  simp only [if_pos rfl] at hs
  have hpath : path_join (resolve_config_dir c a)
      (a.node_name ++ "_bootstrap.json") = bootstrap_path c a := rfl
  refine ⟨sys.get_executable_script "txnvalidator" ++
    (if c.verbose = true then ["-vv"] else []) ++ ["--node", a.node_name] ++
    ["--listen", c.host_name ++ ":" ++ toString a.http_port ++ "/TCP http"] ++
    ["--listen", c.host_name ++ ":" ++ toString a.gossip_port ++ "/UDP gossip"] ++
    config_flags a.config_files, by rw [hs]; simp, ?_, ?_⟩
  · rw [hpath]
    by_cases hdir : resolve_config_dir c a ∈ w.dirs
    · rw [construct_world_genesis_dir_exists sys c a w hgen hdir]
      simp
    · rw [construct_world_genesis_dir_missing sys c a w hgen hdir]
      simp
  · rw [hpath]
    by_cases hdir : resolve_config_dir c a ∈ w.dirs
    · rw [construct_world_genesis_dir_exists sys c a w hgen hdir]
      simp [dictGet_dictSet_self]
    · rw [construct_world_genesis_dir_missing sys c a w hgen hdir]
      simp [dictGet_dictSet_self]

theorem bootstrap_flag_references_written_file_witness :
    aW.genesis = true ∧
    (∃ l₁, (_construct_start_command sysW cW aW wW).1 =
        l₁ ++ ["--config", aW.node_name ++ "_bootstrap.json"] ∧
      Event.writeFileEv
          (path_join (resolve_config_dir cW aW) (aW.node_name ++ "_bootstrap.json"))
          v0_cfg_json ∈ (_construct_start_command sysW cW aW wW).2.trace ∧
      dictGet (_construct_start_command sysW cW aW wW).2.fs
          (path_join (resolve_config_dir cW aW) (aW.node_name ++ "_bootstrap.json")) =
        some v0_cfg_json) :=
  ⟨rfl, bootstrap_flag_references_written_file sysW cW aW wW rfl⟩

/-- C2: conservative-cache invariant. For a tracked node whose handle's
poll reports termination, `is_running` returns false and evicts the entry
before returning; afterwards the controller never again claims liveness for
that node and it does not appear in `get_node_names`. A never-tracked name
also yields false with the registry unchanged. -/
theorem registry_conservative_cache (sys : Sys) (c : SubprocessNodeController)
    (n : String) (w : World) (hd : Handle)
    (hget : dictGet c.nodes n = some hd)
    (hdead : hd.returncode ≠ none ∨ sys.alive hd.pid = false) :
    (is_running sys c n w).1 = false ∧
    dictGet (is_running sys c n w).2.1.nodes n = none ∧
    (is_running sys (is_running sys c n w).2.1 n
      (is_running sys c n w).2.2).1 = false ∧
    n ∉ (get_node_names sys (is_running sys c n w).2.1
      (is_running sys c n w).2.2).1 ∧
    ∀ (c' : SubprocessNodeController) (m : String) (w' : World),
      dictGet c'.nodes m = none → is_running sys c' m w' = (false, c', w') := by
  have heq := is_running_dead sys c n w hd hget hdead
  rw [heq]
  have hnone : dictGet (dictPop c.nodes n) n = none := dictGet_dictPop c.nodes n
  refine ⟨rfl, hnone, ?_, ?_, fun c' m w' h => is_running_untracked sys c' m w' h⟩
  · rw [is_running_untracked sys _ n _ hnone]
  · intro hmem
    have hk := get_node_names_subset sys _ _ n hmem
    exact dictGet_none_not_mem _ n hnone hk

theorem registry_conservative_cache_witness :
    dictGet cDeadW.nodes "alpha" = some hdW ∧
    (is_running sysW cDeadW "alpha" wW).1 = false ∧
    dictGet (is_running sysW cDeadW "alpha" wW).2.1.nodes "alpha" = none :=
  ⟨rfl,
   (registry_conservative_cache sysW cDeadW "alpha" wW hdW rfl
     (Or.inl (by decide))).1,
   (registry_conservative_cache sysW cDeadW "alpha" wW hdW rfl
     (Or.inl (by decide))).2.1⟩

/-- C9: under the single-threaded model, whenever `is_running` returns true
the registry (as it then stands) holds an entry for the node with a live
handle, so the unguarded lookup inside `stop` and `kill` can never fail
after the guard: neither ever reports an uncaught exception. -/
theorem running_implies_tracked_live (sys : Sys) (c : SubprocessNodeController)
    (n : String) (w : World) :
    ((is_running sys c n w).1 = true →
      ∃ hd, dictGet (is_running sys c n w).2.1.nodes n = some hd ∧
        hd.returncode = none) ∧
    (stop sys c n w).1 = false ∧ (kill sys c n w).1 = false := by
  refine ⟨?_, ?_, ?_⟩
  · intro h
    obtain ⟨hd, hget, hrc, hal, heq⟩ := is_running_true_eq sys c n w h
    rw [heq]
    exact ⟨hd, hget, hrc⟩
  · by_cases h : (is_running sys c n w).1 = true
    · obtain ⟨hd, hget, hrc, hal, heq⟩ := is_running_true_eq sys c n w h
      rw [stop_of_running sys c n w hd hget hrc hal]
    · have h' : (is_running sys c n w).1 = false := by simpa using h
      rw [stop_of_not_running sys c n w h']
  · by_cases h : (is_running sys c n w).1 = true
    · obtain ⟨hd, hget, hrc, hal, heq⟩ := is_running_true_eq sys c n w h
      rw [kill_of_running sys c n w hd hget hrc hal]
    · have h' : (is_running sys c n w).1 = false := by simpa using h
      rw [kill_of_not_running sys c n w h']

/-- C3: `stop` and `kill` are no-ops when `is_running` is false (no raise,
no signal, state exactly as the liveness check left it); when `is_running`
is true they deliver the signal, and an undeliverable signal ("no such
process") is logged at debug severity and swallowed. In every case neither
removes the registry entry itself. -/
theorem stop_kill_noop_safety (sys : Sys) (c : SubprocessNodeController)
    (n : String) (w : World) :
    ((is_running sys c n w).1 = false →
      stop sys c n w =
        (false, (is_running sys c n w).2.1, (is_running sys c n w).2.2) ∧
      kill sys c n w =
        (false, (is_running sys c n w).2.1, (is_running sys c n w).2.2) ∧
      nSignals (stop sys c n w).2.2.trace = nSignals w.trace ∧
      nSignals (kill sys c n w).2.2.trace = nSignals w.trace ∧
      nSpawns (stop sys c n w).2.2.trace = nSpawns w.trace) ∧
    ((is_running sys c n w).1 = true →
      ∃ hd, dictGet c.nodes n = some hd ∧
        (stop sys c n w).1 = false ∧ (kill sys c n w).1 = false ∧
        (stop sys c n w).2.1.nodes = c.nodes ∧
        (kill sys c n w).2.1.nodes = c.nodes ∧
        (sys.sig_ok hd.pid = true →
          (stop sys c n w).2.2.trace =
            w.trace ++ [Event.pollEv hd.pid, Event.terminateSig hd.pid] ∧
          (kill sys c n w).2.2.trace =
            w.trace ++ [Event.pollEv hd.pid, Event.killSig hd.pid]) ∧
        (sys.sig_ok hd.pid = false →
          (stop sys c n w).2.2.trace = w.trace ++
            [Event.pollEv hd.pid,
             Event.logDebug "SubprocessNodeController.stop failed"] ∧
          (kill sys c n w).2.2.trace = w.trace ++
            [Event.pollEv hd.pid,
             Event.logDebug "SubprocessNodeController.kill failed"] ∧
          nSignals (stop sys c n w).2.2.trace = nSignals w.trace ∧
          nSignals (kill sys c n w).2.2.trace = nSignals w.trace)) := by
  constructor
  · intro h
    have hs := stop_of_not_running sys c n w h
    have hk := kill_of_not_running sys c n w h
    have hw := is_running_world_cases sys c n w
    refine ⟨hs, hk, ?_, ?_, ?_⟩
    · rw [hs]
      rcases hw with hw | ⟨pid, hw⟩ <;>
        simp [hw, nSignals, List.filter_append, List.filter]
    · rw [hk]
      rcases hw with hw | ⟨pid, hw⟩ <;>
        simp [hw, nSignals, List.filter_append, List.filter]
    · rw [hs]
      rcases hw with hw | ⟨pid, hw⟩ <;>
        simp [hw, nSpawns, List.filter_append, List.filter]
  · intro h
    obtain ⟨hd, hget, hrc, hal, heq⟩ := is_running_true_eq sys c n w h
    have hs := stop_of_running sys c n w hd hget hrc hal
    have hk := kill_of_running sys c n w hd hget hrc hal
    refine ⟨hd, hget, by rw [hs], by rw [hk], by rw [hs], by rw [hk], ?_, ?_⟩
    · intro hsig
      rw [hs, hk]
      simp [hsig]
    · intro hsig
      rw [hs, hk]
      simp [hsig, nSignals, List.filter_append, List.filter]

/-! ### Characterization of `start` -/

theorem start_of_running (sys : Sys) (c : SubprocessNodeController)
    (a : NodeArguments) (w : World)
    (h : (is_running sys c a.node_name w).1 = true) :
    start sys c a w =
      (false, (is_running sys c a.node_name w).2.1,
       (is_running sys c a.node_name w).2.2) := by
  rcases hw : is_running sys c a.node_name w with ⟨b, c', w'⟩
  rw [hw] at h
  simp at h
  subst h
  simp [start, hw]

theorem start_spawn_live (sys : Sys) (c : SubprocessNodeController)
    (a : NodeArguments) (w : World)
    (hr : (is_running sys c a.node_name w).1 = false)
    (hok : sys.spawn_ok w.spawnCount = true)
    (hal : sys.alive w.nextPid = true) :
    start sys c a w =
      (false,
       { (is_running sys c a.node_name w).2.1 with
          nodes := dictSet (is_running sys c a.node_name w).2.1.nodes
            a.node_name { pid := w.nextPid, returncode := none } },
       { (_construct_start_command sys (is_running sys c a.node_name w).2.1 a
            (is_running sys c a.node_name w).2.2).2 with
          nextPid := w.nextPid + 1
          spawnCount := w.spawnCount + 1
          trace := (_construct_start_command sys
              (is_running sys c a.node_name w).2.1 a
              (is_running sys c a.node_name w).2.2).2.trace ++
            [Event.spawn (_construct_start_command sys
                (is_running sys c a.node_name w).2.1 a
                (is_running sys c a.node_name w).2.2).1
              (_build_env sys a) w.nextPid,
             Event.pollEv w.nextPid] }) := by
  rcases hw : is_running sys c a.node_name w with ⟨b, c', w'⟩
  have hb : b = false := by rw [hw] at hr; simpa using hr
  subst hb
  have hpre := is_running_preserves_world sys c a.node_name w
  rw [hw] at hpre
  obtain ⟨hnp, hsc, -, -, -⟩ := hpre
  simp only [] at hnp hsc
  have hcc := construct_preserves sys c' a w'
  obtain ⟨hcnp, hcsc, -, -⟩ := hcc
  simp only [hw]
  simp [start, hw, popen, hcsc, hsc, hok, hcnp, hnp, Handle.poll, hal,
    List.append_assoc]

theorem start_spawn_dead (sys : Sys) (c : SubprocessNodeController)
    (a : NodeArguments) (w : World)
    (hr : (is_running sys c a.node_name w).1 = false)
    (hok : sys.spawn_ok w.spawnCount = true)
    (hdead : sys.alive w.nextPid = false) :
    start sys c a w =
      (false, (is_running sys c a.node_name w).2.1,
       { (_construct_start_command sys (is_running sys c a.node_name w).2.1 a
            (is_running sys c a.node_name w).2.2).2 with
          nextPid := w.nextPid + 1
          spawnCount := w.spawnCount + 1
          trace := (_construct_start_command sys
              (is_running sys c a.node_name w).2.1 a
              (is_running sys c a.node_name w).2.2).2.trace ++
            [Event.spawn (_construct_start_command sys
                (is_running sys c a.node_name w).2.1 a
                (is_running sys c a.node_name w).2.2).1
              (_build_env sys a) w.nextPid,
             Event.pollEv w.nextPid] }) := by
  rcases hw : is_running sys c a.node_name w with ⟨b, c', w'⟩
  have hb : b = false := by rw [hw] at hr; simpa using hr
  subst hb
  have hpre := is_running_preserves_world sys c a.node_name w
  rw [hw] at hpre
  obtain ⟨hnp, hsc, -, -, -⟩ := hpre
  simp only [] at hnp hsc
  have hcc := construct_preserves sys c' a w'
  obtain ⟨hcnp, hcsc, -, -⟩ := hcc
  simp only [hw]
  simp [start, hw, popen, hcsc, hsc, hok, hcnp, hnp, Handle.poll, hdead,
    List.append_assoc]

theorem start_spawn_fail (sys : Sys) (c : SubprocessNodeController)
    (a : NodeArguments) (w : World)
    (hr : (is_running sys c a.node_name w).1 = false)
    (hfail : sys.spawn_ok w.spawnCount = false) :
    start sys c a w =
      (true, (is_running sys c a.node_name w).2.1,
       { (_construct_start_command sys (is_running sys c a.node_name w).2.1 a
            (is_running sys c a.node_name w).2.2).2 with
          spawnCount := w.spawnCount + 1 }) := by
  rcases hw : is_running sys c a.node_name w with ⟨b, c', w'⟩
  have hb : b = false := by rw [hw] at hr; simpa using hr
  subst hb
  have hpre := is_running_preserves_world sys c a.node_name w
  rw [hw] at hpre
  obtain ⟨hnp, hsc, -, -, -⟩ := hpre
  simp only [] at hnp hsc
  have hcc := construct_preserves sys c' a w'
  obtain ⟨hcnp, hcsc, -, -⟩ := hcc
  simp only [hw]
  simp [start, hw, popen, hcsc, hsc, hfail, hcnp, hnp]

/-- C4: `create_genesis_block` executes only when `is_running` is false (it
is fully skipped otherwise, touching nothing beyond that liveness poll);
when it executes it spawns the key-generation helper and waits for it
before spawning the genesis-authoring helper and waiting for it, both
spawns using the environment built by `_build_env`. -/
theorem genesis_two_step_ordering (sys : Sys) (c : SubprocessNodeController)
    (a : NodeArguments) (w : World) :
    ((is_running sys c a.node_name w).1 = true →
      create_genesis_block sys c a w =
        (false, (is_running sys c a.node_name w).2.1,
         (is_running sys c a.node_name w).2.2) ∧
      nSpawns (create_genesis_block sys c a w).2.2.trace = nSpawns w.trace ∧
      (create_genesis_block sys c a w).2.2.fs = w.fs ∧
      (create_genesis_block sys c a w).2.2.dirs = w.dirs) ∧
    ((is_running sys c a.node_name w).1 = false →
      sys.spawn_ok w.spawnCount = true →
      sys.spawn_ok (w.spawnCount + 1) = true →
      ∃ tail1 tail2,
        (create_genesis_block sys c a w).2.2.trace =
          (is_running sys c a.node_name w).2.2.trace ++
            [Event.spawn (sys.get_executable_script "sawtooth" ++
                ["keygen", a.node_name] ++ tail1) (_build_env sys a) w.nextPid,
             Event.waitEv w.nextPid,
             Event.spawn (sys.get_executable_script "sawtooth" ++
                ["admin", "poet0-genesis"] ++ tail2) (_build_env sys a)
               (w.nextPid + 1),
             Event.waitEv (w.nextPid + 1)] ∧
        (create_genesis_block sys c a w).1 = false) := by
  constructor
  · intro h
    obtain ⟨hd, hget, hrc, hal, heq⟩ := is_running_true_eq sys c a.node_name w h
    rw [heq]
    refine ⟨by simp [create_genesis_block, heq], ?_, ?_, ?_⟩
    · simp [create_genesis_block, heq, nSpawns, List.filter_append, List.filter]
    · simp [create_genesis_block, heq]
    · simp [create_genesis_block, heq]
  · intro hr hok1 hok2
    rcases hw : is_running sys c a.node_name w with ⟨b, c', w'⟩
    have hb : b = false := by rw [hw] at hr; simpa using hr
    subst hb
    have hpre := is_running_preserves_world sys c a.node_name w
    rw [hw] at hpre
    obtain ⟨hnp, hsc, -, -, -⟩ := hpre
    simp only [] at hnp hsc
    refine ⟨["--key-dir", resolve_key_dir c' a] ++
      (if c'.verbose = false then ["--quiet"] else []),
      (if c'.verbose = true then ["-vv"] else []) ++ ["--node", a.node_name] ++
      config_flags a.config_files, ?_, ?_⟩
    · simp [create_genesis_block, hw, popen, hsc, hok1, hok2, hnp,
        List.append_assoc]
      by_cases hv : c'.verbose <;> simp [hv]
    · simp [create_genesis_block, hw, popen, hsc, hok1, hok2]

theorem nSpawns_append (t s : List Event) :
    nSpawns (t ++ s) = nSpawns t + nSpawns s := by
  simp [nSpawns, List.filter_append]

theorem nPolls_append (p : Nat) (t s : List Event) :
    nPolls p (t ++ s) = nPolls p t + nPolls p s := by
  simp [nPolls, List.filter_append]

/-- C1: `start` is idempotent. When `is_running` is true it performs no
spawn and leaves the registry unchanged; otherwise it spawns exactly once,
polls the new handle exactly once, and registers the node only when that
poll still reports the process running. Hence two consecutive `start`
calls yield exactly one tracked process and no second spawn. -/
theorem start_idempotent (sys : Sys) (c : SubprocessNodeController)
    (a : NodeArguments) (w : World) :
    ((is_running sys c a.node_name w).1 = true →
      start sys c a w =
        (false, (is_running sys c a.node_name w).2.1,
         (is_running sys c a.node_name w).2.2) ∧
      (start sys c a w).2.1.nodes = c.nodes ∧
      nSpawns (start sys c a w).2.2.trace = nSpawns w.trace) ∧
    ((is_running sys c a.node_name w).1 = false →
      sys.spawn_ok w.spawnCount = true →
      nSpawns (start sys c a w).2.2.trace = nSpawns w.trace + 1 ∧
      nPolls w.nextPid (start sys c a w).2.2.trace =
        nPolls w.nextPid (is_running sys c a.node_name w).2.2.trace + 1 ∧
      (sys.alive w.nextPid = true →
        dictGet (start sys c a w).2.1.nodes a.node_name =
          some { pid := w.nextPid, returncode := none }) ∧
      (sys.alive w.nextPid = false →
        dictGet (start sys c a w).2.1.nodes a.node_name = none)) ∧
    ((is_running sys c a.node_name w).1 = false →
      sys.spawn_ok w.spawnCount = true →
      sys.alive w.nextPid = true →
      nSpawns (start sys (start sys c a w).2.1 a
          (start sys c a w).2.2).2.2.trace =
        nSpawns (start sys c a w).2.2.trace ∧
      (start sys (start sys c a w).2.1 a (start sys c a w).2.2).2.1.nodes =
        (start sys c a w).2.1.nodes ∧
      dictGet (start sys (start sys c a w).2.1 a
          (start sys c a w).2.2).2.1.nodes a.node_name =
        some { pid := w.nextPid, returncode := none }) := by
  refine ⟨?_, ?_, ?_⟩
  · intro h
    obtain ⟨hd, hget, hrc, hal, heq⟩ := is_running_true_eq sys c a.node_name w h
    have hs := start_of_running sys c a w h
    refine ⟨hs, ?_, ?_⟩
    · simp [hs, heq]
    · simp [hs, heq, nSpawns_append, nSpawns, List.filter]
  · intro hr hok
    have hpre := is_running_preserves_world sys c a.node_name w
    obtain ⟨-, -, -, -, hns⟩ := hpre
    have hcc := construct_preserves sys (is_running sys c a.node_name w).2.1 a
      (is_running sys c a.node_name w).2.2
    obtain ⟨-, -, hcns, hcnp⟩ := hcc
    by_cases hal : sys.alive w.nextPid
    · have hs := start_spawn_live sys c a w hr hok hal
      refine ⟨?_, ?_, fun _ => ?_, fun hdead => ?_⟩
      · rw [hs]
        simp only []
        rw [nSpawns_append, hcns, hns]
        simp [nSpawns, List.filter]
      · rw [hs]
        simp only []
        rw [nPolls_append, hcnp]
        simp [nPolls, List.filter]
      · rw [hs]
        simp [dictGet_dictSet_self]
      · rw [hal] at hdead
        exact absurd hdead (by simp)
    · have hal' : sys.alive w.nextPid = false := by simpa using hal
      have hs := start_spawn_dead sys c a w hr hok hal'
      refine ⟨?_, ?_, fun hlive => ?_, fun _ => ?_⟩
      · rw [hs]
        simp only []
        rw [nSpawns_append, hcns, hns]
        simp [nSpawns, List.filter]
      · rw [hs]
        simp only []
        rw [nPolls_append, hcnp]
        simp [nPolls, List.filter]
      · rw [hal'] at hlive
        exact absurd hlive (by simp)
      · rw [hs]
        exact is_running_false_not_tracked sys c a.node_name w hr
  · intro hr hok hal
    have hs := start_spawn_live sys c a w hr hok hal
    have hget1 : dictGet (start sys c a w).2.1.nodes a.node_name =
        some { pid := w.nextPid, returncode := none } := by
      rw [hs]
      simp [dictGet_dictSet_self]
    have hrun2 := is_running_live sys (start sys c a w).2.1 a.node_name
      (start sys c a w).2.2 { pid := w.nextPid, returncode := none } hget1
      rfl hal
    have hs2 := start_of_running sys (start sys c a w).2.1 a
      (start sys c a w).2.2 (by rw [hrun2])
    refine ⟨?_, ?_, ?_⟩
    · rw [hs2, hrun2]
      simp [nSpawns_append, nSpawns, List.filter]
    · rw [hs2, hrun2]
    · rw [hs2, hrun2]
      exact hget1

/-- C10: for a genesis descriptor, the bootstrap directory creation and
file write happen during command construction, before the spawn; if the
spawn itself fails, the exception propagates to the caller but the
bootstrap file has already been written — the filesystem side effect is
not rolled back. -/
theorem genesis_bootstrap_not_rolled_back (sys : Sys)
    (c : SubprocessNodeController) (a : NodeArguments) (w : World)
    (hgen : a.genesis = true)
    (hr : (is_running sys c a.node_name w).1 = false)
    (hfail : sys.spawn_ok w.spawnCount = false) :
    (start sys c a w).1 = true ∧
    dictGet (start sys c a w).2.2.fs (bootstrap_path c a) = some v0_cfg_json ∧
    Event.writeFileEv (bootstrap_path c a) v0_cfg_json ∈
      (start sys c a w).2.2.trace ∧
    nSpawns (start sys c a w).2.2.trace = nSpawns w.trace := by
  have hs := start_spawn_fail sys c a w hr hfail
  have hctrl := is_running_preserves_controller sys c a.node_name w
  obtain ⟨-, -, hcd, -⟩ := hctrl
  have hrd := resolve_config_dir_fields c (is_running sys c a.node_name w).2.1
    a hcd
  have hbp : bootstrap_path (is_running sys c a.node_name w).2.1 a =
      bootstrap_path c a := by
    simp [bootstrap_path, hrd]
  have hpre := is_running_preserves_world sys c a.node_name w
  obtain ⟨-, -, -, -, hns⟩ := hpre
  have hcc := construct_preserves sys (is_running sys c a.node_name w).2.1 a
    (is_running sys c a.node_name w).2.2
  obtain ⟨-, -, hcns, -⟩ := hcc
  refine ⟨by rw [hs], ?_, ?_, ?_⟩
  · rw [hs]
    simp only []
    by_cases hdir : resolve_config_dir (is_running sys c a.node_name w).2.1 a ∈
        (is_running sys c a.node_name w).2.2.dirs
    · rw [construct_world_genesis_dir_exists sys _ a _ hgen hdir]
      simp only []
      rw [hbp]
      exact dictGet_dictSet_self _ _ _
    · rw [construct_world_genesis_dir_missing sys _ a _ hgen hdir]
      simp only []
      rw [hbp]
      exact dictGet_dictSet_self _ _ _
  · rw [hs]
    simp only []
    by_cases hdir : resolve_config_dir (is_running sys c a.node_name w).2.1 a ∈
        (is_running sys c a.node_name w).2.2.dirs
    · rw [construct_world_genesis_dir_exists sys _ a _ hgen hdir]
      simp [hbp]
    · rw [construct_world_genesis_dir_missing sys _ a _ hgen hdir]
      simp [hbp]
  · rw [hs]
    simp only []
    rw [hcns, hns]

theorem genesis_bootstrap_not_rolled_back_witness :
    aW.genesis = true ∧ (start sysFailW cW aW wW).1 = true ∧
    dictGet (start sysFailW cW aW wW).2.2.fs (bootstrap_path cW aW) =
      some v0_cfg_json :=
  ⟨rfl,
   (genesis_bootstrap_not_rolled_back sysFailW cW aW wW rfl rfl rfl).1,
   (genesis_bootstrap_not_rolled_back sysFailW cW aW wW rfl rfl rfl).2.1⟩
